import Mathlib

/-!
Shallow embedding of the cafeteria service (Menu → Submenu → Dish hierarchy).

Sources embedded:
* `cafeteria/internal/models.py` — the three entity tables.  UUID identifiers
  are modelled as `Nat` (the store generates them from a counter, mirroring
  `server_default=func.gen_random_uuid()`); the `Numeric(precision=12, scale=2)`
  price is modelled as an integer count of hundredths (fixed point, 2 decimals).
* `cafeteria/internal/bases.py` — the generic CRUD repository
  (`find` via `one_or_none`, `find_all`, `save`, `delete`).
* `cafeteria/internal/services.py` — `CafeteriaService`, the orchestrator.

The relational store is a record of row lists plus the id counter.  SQLAlchemy
relationship collections (`menu.submenus`, `submenu.dishes`, eagerly loaded
with `lazy="selectin"`) are read off the store relationally:
`menu.submenus` = the submenu rows whose `menu_id` equals the menu's id.
A transaction (`async with get_session() as session, session.begin():`) is
modelled by `runTx`: the body threads a pending store; on success the pending
store is committed, on any raised error the pending writes are discarded
(rollback) and the pre-transaction store remains.  A storage-layer flush
failure is modelled by the `flushOk` flag on mutating operations: when it is
`false` the first flush raises, and the error propagates untranslated
(`Err.storage`), as §4.1 of the repository's own docs describe.

One behaviour needs care.  The mutating operations pass one session to every
repository call, so the session's identity map makes the Python membership
test `submenu in menu.submenus` coincide with ownership (`menu_id` equality):
for them the relational `Store.submenusOf` membership is the faithful model.
The three read operations that perform the containment check
(`get_dish_in_menu_submenu`, `get_dishes_in_menu_submenu`,
`get_menu_submenu`) pass no session: each `find` goes through
`_wrap_session`, which opens a fresh session from the `async_sessionmaker`
per call.  The submenu object and the elements of the menu's eagerly loaded
`submenus` collection then come from different identity maps, and since the
models define no `__eq__`, Python list membership falls back to object
identity and is false for every such pair.  `crossSessionMem` models that
always-false test, so in these reads the containment check raises
`SubmenuNotIncludedInMenuError` whenever the menu and the submenu both
exist, and the code after it is unreachable.
-/

namespace Cafeteria

/-- Row of the `menus` table (`models.py`, class `Menu`): id, title, description.
Its `submenus` relationship is read from the store, not stored in the row. -/
structure Menu where
  id : Nat
  title : String
  description : String
deriving DecidableEq, Repr

/-- Row of the `submenus` table (`models.py`, class `Submenu`): id, title,
description, and the `menu_id` foreign key (`ON DELETE CASCADE`). -/
structure Submenu where
  id : Nat
  title : String
  description : String
  menu_id : Nat
deriving DecidableEq, Repr

/-- Row of the `dishes` table (`models.py`, class `Dish`): id, title,
description, price (fixed point: integer hundredths), and the `submenu_id`
foreign key (`ON DELETE CASCADE`). -/
structure Dish where
  id : Nat
  title : String
  description : String
  price : Int
  submenu_id : Nat
deriving DecidableEq, Repr

/-- The relational store: the three tables plus the id generator counter
(models `server_default=func.gen_random_uuid()` — every generated id is fresh). -/
structure Store where
  menus : List Menu
  submenus : List Submenu
  dishes : List Dish
  nextId : Nat
deriving DecidableEq, Repr

/-- The eagerly loaded `menu.submenus` relationship collection: the submenu
rows whose `menu_id` points at this menu (`back_populates="menu"`). -/
def Store.submenusOf (s : Store) (menu : Menu) : List Submenu :=
  s.submenus.filter (fun sub => sub.menu_id == menu.id)

/-- The eagerly loaded `submenu.dishes` relationship collection: the dish rows
whose `submenu_id` points at this submenu (`back_populates="submenu"`). -/
def Store.dishesOf (s : Store) (submenu : Submenu) : List Dish :=
  s.dishes.filter (fun dish => dish.submenu_id == submenu.id)

/-- Store well-formedness, guaranteed by the schema: primary keys are unique,
and every id the store has handed out (primary keys, and the foreign keys,
which reference existing rows) is below the generator counter. -/
def Store.wf (s : Store) : Prop :=
  (s.menus.map Menu.id).Nodup ∧
  (s.submenus.map Submenu.id).Nodup ∧
  (s.dishes.map Dish.id).Nodup ∧
  (∀ m ∈ s.menus, m.id < s.nextId) ∧
  (∀ sub ∈ s.submenus, sub.menu_id < s.nextId ∧ sub.id < s.nextId) ∧
  (∀ d ∈ s.dishes, d.submenu_id < s.nextId ∧ d.id < s.nextId)

instance (s : Store) : Decidable s.wf := by
  unfold Store.wf; infer_instance

/-- The domain failure taxonomy (`exceptions.py`), plus `storage` for
storage-layer errors, which the core propagates untranslated (§4.1/§7). -/
inductive Err where
  | menuNotFound (menu_id : Nat)
  | submenuNotFound (submenu_id : Nat)
  | dishNotFound (dish_id : Nat)
  | submenuNotIncludedInMenu (menu_id : Nat) (submenu_id : Nat)
  | storage
deriving DecidableEq, Repr

/-- SQLAlchemy `Result.one_or_none()`: `none` for zero rows, the row for
exactly one, and a `MultipleResultsFound` storage error otherwise. -/
def one_or_none {α : Type} (rows : List α) : Except Err (Option α) :=
  match rows with
  | [] => .ok none
  | [row] => .ok (some row)
  | _ :: _ :: _ => .error .storage

/-- `CRUDRepository.find` (`bases.py` lines 60–77): select the rows whose id
column equals `entity_id`, then `one_or_none`. -/
def crud_find {α : Type} (rows : List α) (idOf : α → Nat) (entity_id : Nat) :
    Except Err (Option α) :=
  one_or_none (rows.filter (fun row => idOf row == entity_id))

/-- `MenuRepository.find`. -/
def findMenu (s : Store) (entity_id : Nat) : Except Err (Option Menu) :=
  crud_find s.menus Menu.id entity_id

/-- `SubmenuRepository.find`. -/
def findSubmenu (s : Store) (entity_id : Nat) : Except Err (Option Submenu) :=
  crud_find s.submenus Submenu.id entity_id

/-- `DishRepository.find`. -/
def findDish (s : Store) (entity_id : Nat) : Except Err (Option Dish) :=
  crud_find s.dishes Dish.id entity_id

/-! Result shapes: the mappings the service hands back to the boundary layer. -/

/-- The shape `services.py` returns for a Menu:
`{id, title, description, dishes_count, submenus_count}`. -/
structure MenuView where
  id : Nat
  title : String
  description : String
  dishes_count : Nat
  submenus_count : Nat
deriving DecidableEq, Repr

/-- The shape `services.py` returns for a Submenu:
`{id, title, description, dishes_count}`. -/
structure SubmenuView where
  id : Nat
  title : String
  description : String
  dishes_count : Nat
deriving DecidableEq, Repr

/-- The shape `services.py` returns for a Dish: `{id, title, description, price}`. -/
structure DishView where
  id : Nat
  title : String
  description : String
  price : Int
deriving DecidableEq, Repr

/-- The Dish result mapping built throughout `services.py`. -/
def dishView (dish : Dish) : DishView :=
  { id := dish.id, title := dish.title, description := dish.description,
    price := dish.price }

/-- The Submenu result mapping: `dishes_count` is `len(submenu.dishes)`,
recomputed from the live relationship collection, never stored. -/
def submenuView (s : Store) (submenu : Submenu) : SubmenuView :=
  { id := submenu.id, title := submenu.title, description := submenu.description,
    dishes_count := (s.dishesOf submenu).length }

/-- The Menu result mapping: `dishes_count` is
`sum(len(submenu.dishes) for submenu in menu.submenus)` and `submenus_count`
is `len(menu.submenus)`, recomputed from the live collections, never stored. -/
def menuView (s : Store) (menu : Menu) : MenuView :=
  { id := menu.id, title := menu.title, description := menu.description,
    dishes_count := ((s.submenusOf menu).map (fun sub => (s.dishesOf sub).length)).sum,
    submenus_count := (s.submenusOf menu).length }

/-! Repository writes (`bases.py` `save`/`delete`).  `save` adds the entity to
the session and flushes; a transient entity is inserted with a generated id, a
persistent one has its row updated.  `delete` removes the row and relies on the
store's `ON DELETE CASCADE` to remove dependents.  A flush may fail at the
storage layer; `flushOk = false` models that, and the error propagates
untranslated. -/

/-- `menu_repository.save` on a transient `Menu(title=…, description=…)`:
insert with a fresh generated id, refresh returns the persisted row. -/
def saveNewMenu (flushOk : Bool) (s : Store) (title description : String) :
    Except Err (Store × Menu) :=
  if flushOk then
    let menu : Menu := { id := s.nextId, title := title, description := description }
    .ok ({ s with menus := s.menus ++ [menu], nextId := s.nextId + 1 }, menu)
  else .error .storage

/-- `submenu_repository.save` on a transient
`Submenu(title=…, description=…, menu_id=…)`. -/
def saveNewSubmenu (flushOk : Bool) (s : Store) (title description : String)
    (menu_id : Nat) : Except Err (Store × Submenu) :=
  if flushOk then
    let submenu : Submenu :=
      { id := s.nextId, title := title, description := description, menu_id := menu_id }
    .ok ({ s with submenus := s.submenus ++ [submenu], nextId := s.nextId + 1 }, submenu)
  else .error .storage

/-- `dish_repository.save` on a transient
`Dish(title=…, description=…, price=…, submenu_id=…)`. -/
def saveNewDish (flushOk : Bool) (s : Store) (title description : String)
    (price : Int) (submenu_id : Nat) : Except Err (Store × Dish) :=
  if flushOk then
    let dish : Dish :=
      { id := s.nextId, title := title, description := description,
        price := price, submenu_id := submenu_id }
    .ok ({ s with dishes := s.dishes ++ [dish], nextId := s.nextId + 1 }, dish)
  else .error .storage

/-- `menu_repository.save` on a persistent Menu whose fields were reassigned:
the flush updates the row with that primary key. -/
def saveExistingMenu (flushOk : Bool) (s : Store) (menu : Menu) :
    Except Err (Store × Menu) :=
  if flushOk then
    .ok ({ s with menus := s.menus.map (fun m => if m.id == menu.id then menu else m) },
         menu)
  else .error .storage

/-- `submenu_repository.save` on a persistent Submenu. -/
def saveExistingSubmenu (flushOk : Bool) (s : Store) (submenu : Submenu) :
    Except Err (Store × Submenu) :=
  if flushOk then
    .ok ({ s with
            submenus := s.submenus.map (fun sub => if sub.id == submenu.id then submenu else sub) },
         submenu)
  else .error .storage

/-- `dish_repository.save` on a persistent Dish. -/
def saveExistingDish (flushOk : Bool) (s : Store) (dish : Dish) :
    Except Err (Store × Dish) :=
  if flushOk then
    .ok ({ s with dishes := s.dishes.map (fun d => if d.id == dish.id then dish else d) },
         dish)
  else .error .storage

/-- `dish_repository.delete`: remove the dish row (no dependents). -/
def deleteDishRow (flushOk : Bool) (s : Store) (dish : Dish) : Except Err Store :=
  if flushOk then
    .ok { s with dishes := s.dishes.filter (fun d => d.id != dish.id) }
  else .error .storage

/-- `submenu_repository.delete`: remove the submenu row; the store's
`ON DELETE CASCADE` on `dishes.submenu_id` removes its dishes. -/
def deleteSubmenuRow (flushOk : Bool) (s : Store) (submenu : Submenu) :
    Except Err Store :=
  if flushOk then
    .ok { s with
           submenus := s.submenus.filter (fun sub => sub.id != submenu.id),
           dishes := s.dishes.filter (fun d => d.submenu_id != submenu.id) }
  else .error .storage

/-- `menu_repository.delete`: remove the menu row; the cascade removes its
submenus and, transitively, their dishes. -/
def deleteMenuRow (flushOk : Bool) (s : Store) (menu : Menu) : Except Err Store :=
  if flushOk then
    .ok { s with
           menus := s.menus.filter (fun m => m.id != menu.id),
           submenus := s.submenus.filter (fun sub => sub.menu_id != menu.id),
           dishes := s.dishes.filter
             (fun d => !((s.submenusOf menu).any (fun sub => sub.id == d.submenu_id))) }
  else .error .storage

/-- `async with get_session() as session, session.begin():` — the body runs
inside one transaction: its reads and writes thread one pending store; a
normal return commits the pending store, a raised error rolls every pending
write back, leaving the pre-transaction store, and propagates the error. -/
def runTx {α : Type} (s : Store) (body : Store → Except Err (Store × α)) :
    Store × Except Err α :=
  match body s with
  | .ok (s', a) => (s', .ok a)
  | .error e => (s, .error e)

/-- Python `corrected or old` on an optional string field (`services.py`
partial update): `None` and the falsy empty string both keep the old value. -/
def correctedOr (corrected : Option String) (old : String) : String :=
  match corrected with
  | none => old
  | some v => if v = "" then old else v

/-- Python `corrected or old` on the optional Decimal price: `None` and the
falsy zero both keep the old value. -/
def correctedOrPrice (corrected : Option Int) (old : Int) : Int :=
  match corrected with
  | none => old
  | some v => if v = 0 then old else v

/-! `CafeteriaService` (`services.py`).  Read operations take the store and
return a result or raise; mutating operations additionally take `flushOk`
(whether the storage layer's flushes succeed) and run their whole body — the
validator chain and the mutation — through `runTx`, returning the observable
store together with the result.  A propagated repository error (`.error e`
branches) is re-raised unchanged. -/

/-- Python `submenu in menu.submenus` as it evaluates inside the
session-per-call read operations.  Each sessionless `find` wraps its own
fresh session (`_wrap_session`, `bases.py` lines 126–128, over the
`async_sessionmaker` of `database.py`), so the submenu object and the
elements of the menu's eagerly loaded `submenus` collection belong to
different sessions' identity maps; the entity classes define no `__eq__`,
hence `in` compares by object identity and the test is false for every pair
of distinct objects — that is, always false here. -/
def crossSessionMem (_submenu : Submenu) (_loadedSubmenus : List Submenu) : Bool :=
  false

/-- `CafeteriaService.get_dish_in_menu_submenu` (lines 40–80), a sessionless
read: validate Menu exists → Submenu exists → `submenu in menu.submenus` —
which, across the two sessions, is the always-false `crossSessionMem`, so the
check raises `SubmenuNotIncludedInMenuError` whenever menu and submenu both
exist and the Dish step after it is unreachable. -/
def get_dish_in_menu_submenu (s : Store) (menu_id submenu_id dish_id : Nat) :
    Except Err DishView :=
  match findMenu s menu_id with
  | .error e => .error e
  | .ok none => .error (.menuNotFound menu_id)
  | .ok (some menu) =>
    match findSubmenu s submenu_id with
    | .error e => .error e
    | .ok none => .error (.submenuNotFound submenu_id)
    | .ok (some submenu) =>
      if !(crossSessionMem submenu (s.submenusOf menu)) then
        .error (.submenuNotIncludedInMenu menu_id submenu_id)
      else
        match findDish s dish_id with
        | .error e => .error e
        | .ok none => .error (.dishNotFound dish_id)
        | .ok (some dish) => .ok (dishView dish)

/-- `CafeteriaService.get_dishes_in_menu_submenu` (lines 82–118), a
sessionless read: a missing Submenu returns the empty list — the
`raise SubmenuNotFoundError` is commented out in the source — while for an
existing Submenu the cross-session containment check always raises, so the
non-empty branch is unreachable. -/
def get_dishes_in_menu_submenu (s : Store) (menu_id submenu_id : Nat) :
    Except Err (List DishView) :=
  match findMenu s menu_id with
  | .error e => .error e
  | .ok none => .error (.menuNotFound menu_id)
  | .ok (some menu) =>
    match findSubmenu s submenu_id with
    | .error e => .error e
    | .ok none => .ok []
    | .ok (some submenu) =>
      if !(crossSessionMem submenu (s.submenusOf menu)) then
        .error (.submenuNotIncludedInMenu menu_id submenu_id)
      else
        .ok ((s.dishesOf submenu).map dishView)

/-- `CafeteriaService.add_dish_to_menu_submenu` (lines 120–169): one
transaction; validate Menu → Submenu → containment, then save a transient
Dish bound to `submenu_id` and return its mapping. -/
def add_dish_to_menu_submenu (flushOk : Bool) (s : Store)
    (menu_id submenu_id : Nat) (title description : String) (price : Int) :
    Store × Except Err DishView :=
  runTx s (fun st =>
    match findMenu st menu_id with
    | .error e => .error e
    | .ok none => .error (.menuNotFound menu_id)
    | .ok (some menu) =>
      match findSubmenu st submenu_id with
      | .error e => .error e
      | .ok none => .error (.submenuNotFound submenu_id)
      | .ok (some submenu) =>
        if submenu ∉ st.submenusOf menu then
          .error (.submenuNotIncludedInMenu menu_id submenu_id)
        else
          match saveNewDish flushOk st title description price submenu_id with
          | .error e => .error e
          | .ok (st', dish) => .ok (st', dishView dish))

/-- `CafeteriaService.correct_dish_in_menu_submenu` (lines 171–224): one
transaction; validate Menu → Submenu → containment → Dish, reassign each
field via `corrected or old`, save, and return the mapping. -/
def correct_dish_in_menu_submenu (flushOk : Bool) (s : Store)
    (menu_id submenu_id dish_id : Nat)
    (corrected_title corrected_description : Option String)
    (corrected_price : Option Int) : Store × Except Err DishView :=
  runTx s (fun st =>
    match findMenu st menu_id with
    | .error e => .error e
    | .ok none => .error (.menuNotFound menu_id)
    | .ok (some menu) =>
      match findSubmenu st submenu_id with
      | .error e => .error e
      | .ok none => .error (.submenuNotFound submenu_id)
      | .ok (some submenu) =>
        if submenu ∉ st.submenusOf menu then
          .error (.submenuNotIncludedInMenu menu_id submenu_id)
        else
          match findDish st dish_id with
          | .error e => .error e
          | .ok none => .error (.dishNotFound dish_id)
          | .ok (some dish) =>
            let corrected : Dish :=
              { dish with
                  title := correctedOr corrected_title dish.title,
                  description := correctedOr corrected_description dish.description,
                  price := correctedOrPrice corrected_price dish.price }
            match saveExistingDish flushOk st corrected with
            | .error e => .error e
            | .ok (st', saved) => .ok (st', dishView saved))

/-- `CafeteriaService.remove_dish_from_menu_submenu` (lines 226–269): one
transaction; validate Menu → Submenu → containment → Dish, delete the dish,
and return the deleted dish's mapping. -/
def remove_dish_from_menu_submenu (flushOk : Bool) (s : Store)
    (menu_id submenu_id dish_id : Nat) : Store × Except Err DishView :=
  runTx s (fun st =>
    match findMenu st menu_id with
    | .error e => .error e
    | .ok none => .error (.menuNotFound menu_id)
    | .ok (some menu) =>
      match findSubmenu st submenu_id with
      | .error e => .error e
      | .ok none => .error (.submenuNotFound submenu_id)
      | .ok (some submenu) =>
        if submenu ∉ st.submenusOf menu then
          .error (.submenuNotIncludedInMenu menu_id submenu_id)
        else
          match findDish st dish_id with
          | .error e => .error e
          | .ok none => .error (.dishNotFound dish_id)
          | .ok (some dish) =>
            match deleteDishRow flushOk st dish with
            | .error e => .error e
            | .ok st' => .ok (st', dishView dish))

/-- `CafeteriaService.get_menu` (lines 271–292): find the menu or fail, then
return its mapping with freshly computed counts. -/
def get_menu (s : Store) (menu_id : Nat) : Except Err MenuView :=
  match findMenu s menu_id with
  | .error e => .error e
  | .ok none => .error (.menuNotFound menu_id)
  | .ok (some menu) => .ok (menuView s menu)

/-- `CafeteriaService.get_menus` (lines 294–312): map every menu row to its
mapping with freshly computed counts. -/
def get_menus (s : Store) : Except Err (List MenuView) :=
  .ok (s.menus.map (menuView s))

/-- `CafeteriaService.create_menu` (lines 314–340): one transaction; save a
transient Menu and return its mapping (counts computed on the fresh row). -/
def create_menu (flushOk : Bool) (s : Store) (title description : String) :
    Store × Except Err MenuView :=
  runTx s (fun st =>
    match saveNewMenu flushOk st title description with
    | .error e => .error e
    | .ok (st', menu) => .ok (st', menuView st' menu))

/-- `CafeteriaService.correct_menu` (lines 342–373): one transaction; find the
menu or fail, reassign `title`/`description` via `corrected or old`, save, and
return the mapping. -/
def correct_menu (flushOk : Bool) (s : Store) (menu_id : Nat)
    (corrected_title corrected_description : Option String) :
    Store × Except Err MenuView :=
  runTx s (fun st =>
    match findMenu st menu_id with
    | .error e => .error e
    | .ok none => .error (.menuNotFound menu_id)
    | .ok (some menu) =>
      let corrected : Menu :=
        { menu with
            title := correctedOr corrected_title menu.title,
            description := correctedOr corrected_description menu.description }
      match saveExistingMenu flushOk st corrected with
      | .error e => .error e
      | .ok (st', saved) => .ok (st', menuView st' saved))

/-- `CafeteriaService.delete_menu` (lines 375–399): one transaction; find the
menu or fail, delete it (cascade removes dependents), and return the deleted
menu's mapping (counts read from the collections loaded at fetch time). -/
def delete_menu (flushOk : Bool) (s : Store) (menu_id : Nat) :
    Store × Except Err MenuView :=
  runTx s (fun st =>
    match findMenu st menu_id with
    | .error e => .error e
    | .ok none => .error (.menuNotFound menu_id)
    | .ok (some menu) =>
      match deleteMenuRow flushOk st menu with
      | .error e => .error e
      | .ok st' => .ok (st', menuView st menu))

/-- `CafeteriaService.get_menu_submenu` (lines 401–433), a sessionless read:
validate Menu exists → Submenu exists → `submenu in menu.submenus`, which
across the two sessions is the always-false `crossSessionMem`, so the read
raises `SubmenuNotIncludedInMenuError` whenever menu and submenu both exist
and the submenu mapping is never returned. -/
def get_menu_submenu (s : Store) (menu_id submenu_id : Nat) :
    Except Err SubmenuView :=
  match findMenu s menu_id with
  | .error e => .error e
  | .ok none => .error (.menuNotFound menu_id)
  | .ok (some menu) =>
    match findSubmenu s submenu_id with
    | .error e => .error e
    | .ok none => .error (.submenuNotFound submenu_id)
    | .ok (some submenu) =>
      if !(crossSessionMem submenu (s.submenusOf menu)) then
        .error (.submenuNotIncludedInMenu menu_id submenu_id)
      else
        .ok (submenuView s submenu)

/-- `CafeteriaService.get_menu_submenus` (lines 435–460): find the menu or
fail, then map over `submenu_repository.find_all()` — every submenu row in the
store, not the menu's own collection. -/
def get_menu_submenus (s : Store) (menu_id : Nat) :
    Except Err (List SubmenuView) :=
  match findMenu s menu_id with
  | .error e => .error e
  | .ok none => .error (.menuNotFound menu_id)
  | .ok (some _menu) => .ok (s.submenus.map (submenuView s))

/-- `CafeteriaService.create_menu_submenu` (lines 462–496): one transaction;
find the menu or fail, save a transient Submenu bound to `menu_id`, and return
a mapping whose `description` field is read from `menu.description` — the
owning menu's description — while `id`, `title` and `dishes_count` come from
the created submenu. -/
def create_menu_submenu (flushOk : Bool) (s : Store) (menu_id : Nat)
    (title description : String) : Store × Except Err SubmenuView :=
  runTx s (fun st =>
    match findMenu st menu_id with
    | .error e => .error e
    | .ok none => .error (.menuNotFound menu_id)
    | .ok (some menu) =>
      match saveNewSubmenu flushOk st title description menu_id with
      | .error e => .error e
      | .ok (st', submenu) =>
        .ok (st',
          { id := submenu.id, title := submenu.title,
            description := menu.description,
            dishes_count := (st'.dishesOf submenu).length }))

/-- `CafeteriaService.correct_menu_submenu` (lines 498–540): one transaction;
validate Menu → Submenu → containment, reassign `title`/`description` via
`corrected or old`, save, and return the mapping. -/
def correct_menu_submenu (flushOk : Bool) (s : Store) (menu_id submenu_id : Nat)
    (corrected_title corrected_description : Option String) :
    Store × Except Err SubmenuView :=
  runTx s (fun st =>
    match findMenu st menu_id with
    | .error e => .error e
    | .ok none => .error (.menuNotFound menu_id)
    | .ok (some menu) =>
      match findSubmenu st submenu_id with
      | .error e => .error e
      | .ok none => .error (.submenuNotFound submenu_id)
      | .ok (some submenu) =>
        if submenu ∉ st.submenusOf menu then
          .error (.submenuNotIncludedInMenu menu_id submenu_id)
        else
          let corrected : Submenu :=
            { submenu with
                title := correctedOr corrected_title submenu.title,
                description := correctedOr corrected_description submenu.description }
          match saveExistingSubmenu flushOk st corrected with
          | .error e => .error e
          | .ok (st', saved) => .ok (st', submenuView st' saved))

/-- `CafeteriaService.delete_menu_submenu` (lines 542–574): one transaction;
validate Menu exists → Submenu exists — the source performs no
`submenu not in menu.submenus` containment check here, although its docstring
declares `SubmenuNotIncludedInMenuError` — then delete the submenu (cascade
removes its dishes) and return the deleted submenu's mapping (counts read from
the collection loaded at fetch time). -/
def delete_menu_submenu (flushOk : Bool) (s : Store) (menu_id submenu_id : Nat) :
    Store × Except Err SubmenuView :=
  runTx s (fun st =>
    match findMenu st menu_id with
    | .error e => .error e
    | .ok none => .error (.menuNotFound menu_id)
    | .ok (some _menu) =>
      match findSubmenu st submenu_id with
      | .error e => .error e
      | .ok none => .error (.submenuNotFound submenu_id)
      | .ok (some submenu) =>
        match deleteSubmenuRow flushOk st submenu with
        | .error e => .error e
        | .ok st' => .ok (st', submenuView st submenu))

/-! Concrete stores used to exercise the operations. -/

/-- The empty store. -/
def emptyStore : Store := { menus := [], submenus := [], dishes := [], nextId := 0 }

/-- A small populated store: menus 1 and 2; submenu 10 owned by menu 1 and
submenu 11 owned by menu 2; dish 20 under submenu 10 and dish 21 whose
`submenu_id` is 11. -/
def exampleStore : Store :=
  { menus := [⟨1, "A", "da"⟩, ⟨2, "B", "db"⟩],
    submenus := [⟨10, "S", "ds", 1⟩, ⟨11, "S2", "ds2", 2⟩],
    dishes := [⟨20, "D", "dd", 500, 10⟩, ⟨21, "E", "de", 700, 11⟩],
    nextId := 30 }

/-! General lemmas about the repository layer. -/

/-- Selecting on an id column nobody matches returns no rows. -/
theorem filter_beq_nil {α : Type} (idOf : α → Nat) (l : List α) (i : Nat)
    (h : ∀ a ∈ l, idOf a ≠ i) :
    l.filter (fun a => idOf a == i) = [] := by
  induction l with
  | nil => rfl
  | cons x xs ih =>
    have hx : (idOf x == i) = false := by
      simp only [beq_eq_false_iff_ne, ne_eq]
      exact h x (List.mem_cons_self x xs)
    rw [List.filter_cons_of_neg (by simp [hx])]
    exact ih (fun a ha => h a (List.mem_cons_of_mem _ ha))

/-- Selecting on an id column with unique values returns exactly the one
matching row. -/
theorem filter_beq_singleton {α : Type} (idOf : α → Nat) (l : List α)
    (hnd : (l.map idOf).Nodup) (a : α) (ha : a ∈ l) (i : Nat) (hai : idOf a = i) :
    l.filter (fun x => idOf x == i) = [a] := by
  induction l with
  | nil => cases ha
  | cons x xs ih =>
    rw [List.map_cons, List.nodup_cons] at hnd
    rcases List.mem_cons.mp ha with rfl | hmem
    · rw [List.filter_cons_of_pos (by simp [hai])]
      rw [filter_beq_nil idOf xs i ?_]
      intro b hb hbi
      exact hnd.1 (hai ▸ hbi ▸ List.mem_map_of_mem idOf hb)
    · have hxi : idOf x ≠ i := by
        intro hxi
        exact hnd.1 (hxi ▸ hai ▸ List.mem_map_of_mem idOf hmem)
      rw [List.filter_cons_of_neg (by simp [hxi])]
      exact ih hnd.2 hmem

/-- `find` when no row has the identifier: absent, not an error. -/
theorem crud_find_none {α : Type} (rows : List α) (idOf : α → Nat) (i : Nat)
    (h : ∀ a ∈ rows, idOf a ≠ i) :
    crud_find rows idOf i = .ok none := by
  unfold crud_find
  rw [filter_beq_nil idOf rows i h]
  rfl

/-- `find` when a row has the identifier and ids are unique: that row. -/
theorem crud_find_some {α : Type} (rows : List α) (idOf : α → Nat)
    (hnd : (rows.map idOf).Nodup) (a : α) (ha : a ∈ rows) (i : Nat)
    (hai : idOf a = i) :
    crud_find rows idOf i = .ok (some a) := by
  unfold crud_find
  rw [filter_beq_singleton idOf rows hnd a ha i hai]
  rfl

/-- Membership in the loaded `menu.submenus` collection is exactly "this
submenu row's `menu_id` is the menu's id". -/
theorem mem_submenusOf {s : Store} {menu : Menu} {submenu : Submenu} :
    submenu ∈ s.submenusOf menu ↔ submenu ∈ s.submenus ∧ submenu.menu_id = menu.id := by
  simp [Store.submenusOf, List.mem_filter]

/-- A transaction that raises leaves the pre-transaction store observable:
`session.begin()` rolls every pending write back. -/
theorem runTx_rollback {α : Type} (s : Store) (body : Store → Except Err (Store × α))
    (e : Err) (h : (runTx s body).2 = .error e) : (runTx s body).1 = s := by
  unfold runTx at h ⊢
  cases hb : body s with
  | ok p => rw [hb] at h; cases h
  | error e2 => rfl

/-- C1: refuted on get.  On the concrete store — menu 1 present, submenu 10
present and owned by menu 1 (a member of its relational submenu collection),
dish 99 absent — the mutating Dish-addressed operations follow the claimed
validator order through to `DishNotFound`; but `get_dish_in_menu_submenu`
reports `SubmenuNotIncludedInMenu`: its session-per-call containment check
compares objects from different sessions by identity and fails for every
existing submenu, so its Dish-exists step — which the claim, its docstring
(`:raises DishNotFoundError:`) and §4.2 step 4 require — is unreachable. -/
theorem C1_get_dish_breaks_at_containment :
    (correct_dish_in_menu_submenu true exampleStore 1 10 99 none none none).2
        = .error (.dishNotFound 99) ∧
    (remove_dish_from_menu_submenu true exampleStore 1 10 99).2
        = .error (.dishNotFound 99) ∧
    get_dish_in_menu_submenu exampleStore 1 10 99
        = .error (.submenuNotIncludedInMenu 1 10) ∧
    (⟨10, "S", "ds", 1⟩ : Submenu) ∈ exampleStore.submenusOf ⟨1, "A", "da"⟩ :=
  ⟨rfl, rfl, rfl, by decide⟩

/-- C2: refuted on delete.  Submenu 10 was created under menu 1; menu 2 exists
and differs from menu 1.  `delete_menu_submenu` addressed at submenu 10 under
menu 2 does not fail with `SubmenuNotIncludedInMenu` — the source performs no
containment check on this path, although its docstring declares the error — it
deletes submenu 10 (and, by cascade, its dish 20) and returns its mapping.
The get and correct operations on the same addressing do fail with
`SubmenuNotIncludedInMenu` as claimed (correct through its same-session
containment check; the sessionless get through the cross-session one, which
rejects every existing submenu). -/
theorem C2_delete_skips_containment_check :
    (delete_menu_submenu true exampleStore 2 10).2
        = .ok { id := 10, title := "S", description := "ds", dishes_count := 1 } ∧
    (delete_menu_submenu true exampleStore 2 10).1.submenus
        = [⟨11, "S2", "ds2", 2⟩] ∧
    (delete_menu_submenu true exampleStore 2 10).1.dishes
        = [⟨21, "E", "de", 700, 11⟩] ∧
    get_menu_submenu exampleStore 2 10
        = .error (.submenuNotIncludedInMenu 2 10) ∧
    (correct_menu_submenu true exampleStore 2 10 (some "X") none).2
        = .error (.submenuNotIncludedInMenu 2 10) :=
  ⟨rfl, rfl, rfl, rfl, rfl⟩

/-- C3: refuted.  Listing the submenus under menu 1 returns every submenu row
in the store — `get_menu_submenus` maps over `submenu_repository.find_all()` —
including submenu 11, whose `menu_id` is 2, not 1, contradicting the source's
own docstring ("список подменю меню", the menu's submenus). -/
theorem C3_list_submenus_returns_foreign_rows :
    get_menu_submenus exampleStore 1
        = .ok [{ id := 10, title := "S", description := "ds", dishes_count := 1 },
               { id := 11, title := "S2", description := "ds2", dishes_count := 1 }] ∧
    (⟨11, "S2", "ds2", 2⟩ : Submenu) ∈ exampleStore.submenus ∧
    (2 : Nat) ≠ 1 :=
  ⟨rfl, by decide, by decide⟩

/-- C4: for an existing Menu and a nonexistent Submenu id, listing the Dishes
under that Submenu returns the empty sequence with no error, while getting any
specific Dish under the same nonexistent Submenu fails with `SubmenuNotFound`. -/
theorem C4_list_vs_get_asymmetry (s : Store) (hwf : s.wf)
    (menu_id submenu_id : Nat) (menu : Menu) (hmenu : menu ∈ s.menus)
    (hmid : menu.id = menu_id)
    (hnone : ∀ sub ∈ s.submenus, sub.id ≠ submenu_id) :
    get_dishes_in_menu_submenu s menu_id submenu_id = .ok [] ∧
    ∀ dish_id : Nat,
      get_dish_in_menu_submenu s menu_id submenu_id dish_id
          = .error (.submenuNotFound submenu_id) := by
  obtain ⟨hm, -, -, -, -, -⟩ := hwf
  have hfm : findMenu s menu_id = .ok (some menu) :=
    crud_find_some _ _ hm menu hmenu _ hmid
  have hfs : findSubmenu s submenu_id = .ok none := crud_find_none _ _ _ hnone
  constructor
  · simp [get_dishes_in_menu_submenu, hfm, hfs]
  · intro dish_id
    simp [get_dish_in_menu_submenu, hfm, hfs]

/-- C4 witness: on the concrete store, listing dishes under menu 1 and the
nonexistent submenu 99 yields the empty list, while getting dish 20 there
fails with `SubmenuNotFound`. -/
theorem C4_list_vs_get_asymmetry_witness :
    get_dishes_in_menu_submenu exampleStore 1 99 = .ok [] ∧
    get_dish_in_menu_submenu exampleStore 1 99 20
        = .error (.submenuNotFound 99) := by
  have h := C4_list_vs_get_asymmetry exampleStore (by decide) 1 99
    ⟨1, "A", "da"⟩ (by decide) (by decide) (by decide)
  exact ⟨h.1, h.2 20⟩

/-- C8: the generic repository's `find` — here bound to each of the three
entity tables — returns the unique row with the given identifier when one
exists, and absent (`.ok none`, not an error) when no row matches. -/
theorem C8_find_unique_or_absent (s : Store) (hwf : s.wf) (i : Nat) :
    (∀ m ∈ s.menus, m.id = i → findMenu s i = .ok (some m)) ∧
    ((∀ m ∈ s.menus, m.id ≠ i) → findMenu s i = .ok none) ∧
    (∀ sub ∈ s.submenus, sub.id = i → findSubmenu s i = .ok (some sub)) ∧
    ((∀ sub ∈ s.submenus, sub.id ≠ i) → findSubmenu s i = .ok none) ∧
    (∀ d ∈ s.dishes, d.id = i → findDish s i = .ok (some d)) ∧
    ((∀ d ∈ s.dishes, d.id ≠ i) → findDish s i = .ok none) := by
  obtain ⟨hm, hsub, hd, -, -, -⟩ := hwf
  exact ⟨fun m hmem hid => crud_find_some _ _ hm m hmem _ hid,
         fun h => crud_find_none _ _ _ h,
         fun sub hmem hid => crud_find_some _ _ hsub sub hmem _ hid,
         fun h => crud_find_none _ _ _ h,
         fun d hmem hid => crud_find_some _ _ hd d hmem _ hid,
         fun h => crud_find_none _ _ _ h⟩

/-- C8 witness: on the concrete store, `find` returns menu 1, submenu 10 and
dish 20 by their ids, and absent for the unused id 99 in every table. -/
theorem C8_find_unique_or_absent_witness :
    findMenu exampleStore 1 = .ok (some ⟨1, "A", "da"⟩) ∧
    findMenu exampleStore 99 = .ok none ∧
    findSubmenu exampleStore 10 = .ok (some ⟨10, "S", "ds", 1⟩) ∧
    findSubmenu exampleStore 99 = .ok none ∧
    findDish exampleStore 20 = .ok (some ⟨20, "D", "dd", 500, 10⟩) ∧
    findDish exampleStore 99 = .ok none :=
  ⟨(C8_find_unique_or_absent exampleStore (by decide) 1).1
      ⟨1, "A", "da"⟩ (by decide) (by decide),
   (C8_find_unique_or_absent exampleStore (by decide) 99).2.1 (by decide),
   (C8_find_unique_or_absent exampleStore (by decide) 10).2.2.1
      ⟨10, "S", "ds", 1⟩ (by decide) (by decide),
   (C8_find_unique_or_absent exampleStore (by decide) 99).2.2.2.1 (by decide),
   (C8_find_unique_or_absent exampleStore (by decide) 20).2.2.2.2.1
      ⟨20, "D", "dd", 500, 10⟩ (by decide) (by decide),
   (C8_find_unique_or_absent exampleStore (by decide) 99).2.2.2.2.2 (by decide)⟩

/-- Rows of a table with unique id values are determined by their id. -/
theorem nodup_map_inj {α : Type} (idOf : α → Nat) (l : List α)
    (hnd : (l.map idOf).Nodup) (a b : α) (ha : a ∈ l) (hb : b ∈ l)
    (hid : idOf a = idOf b) : a = b := by
  have h1 := filter_beq_singleton idOf l hnd b hb (idOf b) rfl
  have h2 : a ∈ l.filter (fun x => idOf x == idOf b) := by
    rw [List.mem_filter]
    exact ⟨ha, by simp [hid]⟩
  rw [h1] at h2
  simpa using h2

/-- C5: across correct-Menu, correct-Submenu and correct-Dish, a supplied
value replaces the stored one unless it is the type's falsy empty/zero value
(empty string, zero price), in which case the old value is retained — in
particular an empty-string title on a Dish leaves the title, and the whole
store, unchanged. -/
theorem C5_falsy_partial_update (s : Store) (hwf : s.wf)
    (menu_id submenu_id dish_id : Nat)
    (menu : Menu) (hmenu : menu ∈ s.menus) (hmid : menu.id = menu_id)
    (sub : Submenu) (hsubm : sub ∈ s.submenus) (hsid : sub.id = submenu_id)
    (hown : sub.menu_id = menu_id)
    (dish : Dish) (hdish : dish ∈ s.dishes) (hdid : dish.id = dish_id) :
    (∀ t : String, t ≠ "" →
      (correct_dish_in_menu_submenu true s menu_id submenu_id dish_id
          (some t) none none).2
        = .ok { id := dish.id, title := t, description := dish.description,
                price := dish.price }) ∧
    ((correct_dish_in_menu_submenu true s menu_id submenu_id dish_id
          (some "") none none).2 = .ok (dishView dish) ∧
      (correct_dish_in_menu_submenu true s menu_id submenu_id dish_id
          (some "") none none).1 = s) ∧
    (∀ d : String, d ≠ "" →
      (correct_dish_in_menu_submenu true s menu_id submenu_id dish_id
          none (some d) none).2
        = .ok { id := dish.id, title := dish.title, description := d,
                price := dish.price }) ∧
    ((correct_dish_in_menu_submenu true s menu_id submenu_id dish_id
          none (some "") none).2 = .ok (dishView dish)) ∧
    (∀ p : Int, p ≠ 0 →
      (correct_dish_in_menu_submenu true s menu_id submenu_id dish_id
          none none (some p)).2
        = .ok { id := dish.id, title := dish.title,
                description := dish.description, price := p }) ∧
    ((correct_dish_in_menu_submenu true s menu_id submenu_id dish_id
          none none (some 0)).2 = .ok (dishView dish)) ∧
    (∀ t : String, t ≠ "" →
      (correct_menu true s menu_id (some t) none).2
        = .ok { menuView s menu with title := t }) ∧
    ((correct_menu true s menu_id (some "") none).2 = .ok (menuView s menu)) ∧
    (∀ d : String, d ≠ "" →
      (correct_menu true s menu_id none (some d)).2
        = .ok { menuView s menu with description := d }) ∧
    ((correct_menu true s menu_id none (some "")).2 = .ok (menuView s menu)) ∧
    (∀ t : String, t ≠ "" →
      (correct_menu_submenu true s menu_id submenu_id (some t) none).2
        = .ok { submenuView s sub with title := t }) ∧
    ((correct_menu_submenu true s menu_id submenu_id (some "") none).2
        = .ok (submenuView s sub)) ∧
    (∀ d : String, d ≠ "" →
      (correct_menu_submenu true s menu_id submenu_id none (some d)).2
        = .ok { submenuView s sub with description := d }) ∧
    ((correct_menu_submenu true s menu_id submenu_id none (some "")).2
        = .ok (submenuView s sub)) := by
  obtain ⟨hm, hs, hd, -, -, -⟩ := hwf
  have hfm : findMenu s menu_id = .ok (some menu) :=
    crud_find_some _ _ hm menu hmenu _ hmid
  have hfs : findSubmenu s submenu_id = .ok (some sub) :=
    crud_find_some _ _ hs sub hsubm _ hsid
  have hin : sub ∈ s.submenusOf menu :=
    mem_submenusOf.mpr ⟨hsubm, hown.trans hmid.symm⟩
  have hfd : findDish s dish_id = .ok (some dish) :=
    crud_find_some _ _ hd dish hdish _ hdid
  refine ⟨?_, ⟨?_, ?_⟩, ?_, ?_, ?_, ?_, ?_, ?_, ?_, ?_, ?_, ?_, ?_, ?_⟩
  · intro t ht
    simp [correct_dish_in_menu_submenu, runTx, hfm, hfs, hin, hfd,
          saveExistingDish, correctedOr, correctedOrPrice, ht, dishView]
  · simp [correct_dish_in_menu_submenu, runTx, hfm, hfs, hin, hfd,
          saveExistingDish, correctedOr, correctedOrPrice, dishView]
  · simp [correct_dish_in_menu_submenu, runTx, hfm, hfs, hin, hfd,
          saveExistingDish, correctedOr, correctedOrPrice]
    have hmap : List.map (fun d => if d.id = dish.id then
        ({ id := dish.id, title := dish.title, description := dish.description,
           price := dish.price, submenu_id := dish.submenu_id } : Dish) else d)
        s.dishes = s.dishes := by
      conv_rhs => rw [← List.map_id s.dishes]
      refine List.map_congr_left ?_
      intro d hdm
      by_cases hc : d.id = dish.id
      · have hde : d = dish := nodup_map_inj Dish.id s.dishes hd d dish hdm hdish hc
        simp [hde, hc]
      · simp [hc]
    rw [hmap]
  · intro d hdne
    simp [correct_dish_in_menu_submenu, runTx, hfm, hfs, hin, hfd,
          saveExistingDish, correctedOr, correctedOrPrice, hdne, dishView]
  · simp [correct_dish_in_menu_submenu, runTx, hfm, hfs, hin, hfd,
          saveExistingDish, correctedOr, correctedOrPrice, dishView]
  · intro p hp
    simp [correct_dish_in_menu_submenu, runTx, hfm, hfs, hin, hfd,
          saveExistingDish, correctedOr, correctedOrPrice, hp, dishView]
  · simp [correct_dish_in_menu_submenu, runTx, hfm, hfs, hin, hfd,
          saveExistingDish, correctedOr, correctedOrPrice, dishView]
  · intro t ht
    simp [correct_menu, runTx, hfm, saveExistingMenu, correctedOr, ht,
          menuView, Store.submenusOf, Store.dishesOf]
  · simp [correct_menu, runTx, hfm, saveExistingMenu, correctedOr,
          menuView, Store.submenusOf, Store.dishesOf]
  · intro d hdne
    simp [correct_menu, runTx, hfm, saveExistingMenu, correctedOr, hdne,
          menuView, Store.submenusOf, Store.dishesOf]
  · simp [correct_menu, runTx, hfm, saveExistingMenu, correctedOr,
          menuView, Store.submenusOf, Store.dishesOf]
  · intro t ht
    simp [correct_menu_submenu, runTx, hfm, hfs, hin, saveExistingSubmenu,
          correctedOr, ht, submenuView, Store.dishesOf]
  · simp [correct_menu_submenu, runTx, hfm, hfs, hin, saveExistingSubmenu,
          correctedOr, submenuView, Store.dishesOf]
  · intro d hdne
    simp [correct_menu_submenu, runTx, hfm, hfs, hin, saveExistingSubmenu,
          correctedOr, hdne, submenuView, Store.dishesOf]
  · simp [correct_menu_submenu, runTx, hfm, hfs, hin, saveExistingSubmenu,
          correctedOr, submenuView, Store.dishesOf]

/-- C5 witness: on the concrete store, correcting dish 20 with title "N"
replaces the title; correcting it with the empty title returns the dish
unchanged and leaves the whole store unchanged; correcting it with price 0
retains the old price 500. -/
theorem C5_falsy_partial_update_witness :
    (correct_dish_in_menu_submenu true exampleStore 1 10 20 (some "N") none none).2
        = .ok { id := 20, title := "N", description := "dd", price := 500 } ∧
    (correct_dish_in_menu_submenu true exampleStore 1 10 20 (some "") none none).2
        = .ok { id := 20, title := "D", description := "dd", price := 500 } ∧
    (correct_dish_in_menu_submenu true exampleStore 1 10 20 (some "") none none).1
        = exampleStore ∧
    (correct_dish_in_menu_submenu true exampleStore 1 10 20 none none (some 0)).2
        = .ok { id := 20, title := "D", description := "dd", price := 500 } := by
  have h := C5_falsy_partial_update exampleStore (by decide) 1 10 20
    ⟨1, "A", "da"⟩ (by decide) (by decide)
    ⟨10, "S", "ds", 1⟩ (by decide) (by decide) (by decide)
    ⟨20, "D", "dd", 500, 10⟩ (by decide) (by decide)
  exact ⟨h.1 "N" (by decide), h.2.1.1, h.2.1.2, h.2.2.2.2.2.1⟩

/-- C6: every create/correct/delete operation runs its validator chain and its
mutation inside its single transaction (`runTx` wraps the whole body, which
threads one session store through every read and write); whenever the
operation fails — a validation error or a storage flush failure — the
transaction rolls back, so the observable store afterwards equals the store
before the operation. -/
theorem C6_tx_atomic_rollback (flushOk : Bool) (s : Store)
    (menu_id submenu_id dish_id : Nat) (title description : String)
    (price : Int) (ct cd : Option String) (cp : Option Int) (e : Err) :
    ((create_menu flushOk s title description).2 = .error e →
        (create_menu flushOk s title description).1 = s) ∧
    ((correct_menu flushOk s menu_id ct cd).2 = .error e →
        (correct_menu flushOk s menu_id ct cd).1 = s) ∧
    ((delete_menu flushOk s menu_id).2 = .error e →
        (delete_menu flushOk s menu_id).1 = s) ∧
    ((create_menu_submenu flushOk s menu_id title description).2 = .error e →
        (create_menu_submenu flushOk s menu_id title description).1 = s) ∧
    ((correct_menu_submenu flushOk s menu_id submenu_id ct cd).2 = .error e →
        (correct_menu_submenu flushOk s menu_id submenu_id ct cd).1 = s) ∧
    ((delete_menu_submenu flushOk s menu_id submenu_id).2 = .error e →
        (delete_menu_submenu flushOk s menu_id submenu_id).1 = s) ∧
    ((add_dish_to_menu_submenu flushOk s menu_id submenu_id
          title description price).2 = .error e →
        (add_dish_to_menu_submenu flushOk s menu_id submenu_id
          title description price).1 = s) ∧
    ((correct_dish_in_menu_submenu flushOk s menu_id submenu_id dish_id
          ct cd cp).2 = .error e →
        (correct_dish_in_menu_submenu flushOk s menu_id submenu_id dish_id
          ct cd cp).1 = s) ∧
    ((remove_dish_from_menu_submenu flushOk s menu_id submenu_id dish_id).2
          = .error e →
        (remove_dish_from_menu_submenu flushOk s menu_id submenu_id
          dish_id).1 = s) :=
  ⟨fun h => runTx_rollback _ _ e h, fun h => runTx_rollback _ _ e h,
   fun h => runTx_rollback _ _ e h, fun h => runTx_rollback _ _ e h,
   fun h => runTx_rollback _ _ e h, fun h => runTx_rollback _ _ e h,
   fun h => runTx_rollback _ _ e h, fun h => runTx_rollback _ _ e h,
   fun h => runTx_rollback _ _ e h⟩

/-- C6 witness: on the concrete store, deleting menu 1 under a failing
storage flush errors and leaves the store untouched, and correcting the
nonexistent menu 99 fails validation and leaves the store untouched. -/
theorem C6_tx_atomic_rollback_witness :
    (delete_menu false exampleStore 1).1 = exampleStore ∧
    (correct_menu true exampleStore 99 (some "X") none).1 = exampleStore :=
  ⟨(C6_tx_atomic_rollback false exampleStore 1 0 0 "" "" 0 none none none
      .storage).2.2.1 rfl,
   (C6_tx_atomic_rollback true exampleStore 99 0 0 "" "" 0 (some "X") none none
      (.menuNotFound 99)).2.1 rfl⟩

/-- The Menu half of the aggregate contract, which does hold of the program:
every Menu read reports `dishes_count` = the sum of the dish-collection sizes
over the menu's submenus and `submenus_count` = the size of its submenu
collection, recomputed from the live collections (the rows store no counts). -/
theorem menu_read_reports_live_counts (s : Store) (hwf : s.wf) (menu_id : Nat)
    (menu : Menu) (hmenu : menu ∈ s.menus) (hmid : menu.id = menu_id) :
    get_menu s menu_id
        = .ok { id := menu.id, title := menu.title,
                description := menu.description,
                dishes_count := ((s.submenusOf menu).map
                    (fun sub2 => (s.dishesOf sub2).length)).sum,
                submenus_count := (s.submenusOf menu).length } := by
  obtain ⟨hm, -, -, -, -, -⟩ := hwf
  have hfm : findMenu s menu_id = .ok (some menu) :=
    crud_find_some _ _ hm menu hmenu _ hmid
  simp [get_menu, hfm, menuView]

/-- C7: refuted on the Submenu read.  Running the claim's own scenario —
create menu M, then submenu S under it, then two dishes under S — the Menu
read reports `submenus_count = 1` and `dishes_count = 2` exactly as claimed,
but `get_menu_submenu` on S raises `SubmenuNotIncludedInMenu` instead of
reporting `dishes_count = 2`: the sessionless read's containment check
compares objects from different sessions by identity and fails for every
existing submenu, so a Submenu read never reports its dish count. -/
theorem C7_submenu_read_never_reports_counts :
    (let r1 := create_menu true emptyStore "M" "dm"
     let r2 := create_menu_submenu true r1.1 0 "S" "ds"
     let r3 := add_dish_to_menu_submenu true r2.1 0 1 "D1" "dd1" 500
     let r4 := add_dish_to_menu_submenu true r3.1 0 1 "D2" "dd2" 600
     get_menu r4.1 0
        = .ok { id := 0, title := "M", description := "dm",
                dishes_count := 2, submenus_count := 1 } ∧
     get_menu_submenu r4.1 0 1
        = .error (.submenuNotIncludedInMenu 0 1) ∧
     (⟨1, "S", "ds", 0⟩ : Submenu) ∈ r4.1.submenus) :=
  ⟨rfl, rfl, by decide⟩

/-- C9 counterexample: menu 1 exists, submenu 10 exists and is a member of
menu 1's relational submenu collection, and dish 21 exists with
`submenu_id = 11 ≠ 10` — yet the Dish-addressed get does not succeed on it:
the sessionless read's containment check raises `SubmenuNotIncludedInMenu`
before the dish is ever fetched. -/
theorem C9_get_foreign_dish_does_not_succeed :
    get_dish_in_menu_submenu exampleStore 1 10 21
        = .error (.submenuNotIncludedInMenu 1 10) ∧
    (⟨10, "S", "ds", 1⟩ : Submenu) ∈ exampleStore.submenusOf ⟨1, "A", "da"⟩ ∧
    (⟨21, "E", "de", 700, 11⟩ : Dish) ∈ exampleStore.dishes :=
  ⟨rfl, by decide, by decide⟩

/-- C9 amended: when the Menu exists, the Submenu exists and belongs to that
Menu, and the Dish id resolves to a dish whose `submenu_id` references a
different Submenu, the mutating Dish-addressed operations (correct, delete)
still succeed on that dish — no validator step compares `dish.submenu_id`
with the addressed Submenu — mutating it or deleting exactly it; the
sessionless get instead fails with `SubmenuNotIncludedInMenu`, raised by its
always-failing cross-session containment check before the dish is fetched
(so it, too, never checks the dish's membership). -/
theorem C9_dish_membership_never_checked (s : Store) (hwf : s.wf)
    (menu_id submenu_id dish_id : Nat)
    (menu : Menu) (hmenu : menu ∈ s.menus) (hmid : menu.id = menu_id)
    (sub : Submenu) (hsubm : sub ∈ s.submenus) (hsid : sub.id = submenu_id)
    (hown : sub.menu_id = menu_id)
    (dish : Dish) (hdish : dish ∈ s.dishes) (hdid : dish.id = dish_id)
    (hforeign : dish.submenu_id ≠ submenu_id) :
    get_dish_in_menu_submenu s menu_id submenu_id dish_id
        = .error (.submenuNotIncludedInMenu menu_id submenu_id) ∧
    (∀ t : String, t ≠ "" →
      (correct_dish_in_menu_submenu true s menu_id submenu_id dish_id
          (some t) none none).2
        = .ok { id := dish.id, title := t, description := dish.description,
                price := dish.price }) ∧
    (remove_dish_from_menu_submenu true s menu_id submenu_id dish_id).2
        = .ok (dishView dish) ∧
    (remove_dish_from_menu_submenu true s menu_id submenu_id dish_id).1.dishes
        = s.dishes.filter (fun d => d.id != dish.id) := by
  obtain ⟨hm, hs, hd, -, -, -⟩ := hwf
  have hfm : findMenu s menu_id = .ok (some menu) :=
    crud_find_some _ _ hm menu hmenu _ hmid
  have hfs : findSubmenu s submenu_id = .ok (some sub) :=
    crud_find_some _ _ hs sub hsubm _ hsid
  have hin : sub ∈ s.submenusOf menu :=
    mem_submenusOf.mpr ⟨hsubm, hown.trans hmid.symm⟩
  have hfd : findDish s dish_id = .ok (some dish) :=
    crud_find_some _ _ hd dish hdish _ hdid
  refine ⟨?_, ?_, ?_, ?_⟩
  · simp [get_dish_in_menu_submenu, hfm, hfs, crossSessionMem]
  · intro t ht
    simp [correct_dish_in_menu_submenu, runTx, hfm, hfs, hin, hfd,
          saveExistingDish, correctedOr, correctedOrPrice, ht, dishView]
  · simp [remove_dish_from_menu_submenu, runTx, hfm, hfs, hin, hfd,
          deleteDishRow]
  · simp [remove_dish_from_menu_submenu, runTx, hfm, hfs, hin, hfd,
          deleteDishRow]

/-- C9 witness: on the concrete store, dish 21 has `submenu_id = 11`, yet
addressed under menu 1 / submenu 10 it is mutated by correct and deleted by
delete (leaving only dish 20), while get fails with
`SubmenuNotIncludedInMenu`. -/
theorem C9_dish_membership_never_checked_witness :
    get_dish_in_menu_submenu exampleStore 1 10 21
        = .error (.submenuNotIncludedInMenu 1 10) ∧
    (correct_dish_in_menu_submenu true exampleStore 1 10 21
        (some "N") none none).2
        = .ok { id := 21, title := "N", description := "de", price := 700 } ∧
    (remove_dish_from_menu_submenu true exampleStore 1 10 21).2
        = .ok { id := 21, title := "E", description := "de", price := 700 } ∧
    (remove_dish_from_menu_submenu true exampleStore 1 10 21).1.dishes
        = [⟨20, "D", "dd", 500, 10⟩] := by
  have h := C9_dish_membership_never_checked exampleStore (by decide) 1 10 21
    ⟨1, "A", "da"⟩ (by decide) (by decide)
    ⟨10, "S", "ds", 1⟩ (by decide) (by decide) (by decide)
    ⟨21, "E", "de", 700, 11⟩ (by decide) (by decide) (by decide)
  exact ⟨h.1, h.2.1 "N" (by decide), h.2.2.1, h.2.2.2⟩

/-- C10: a successful create-Submenu stores the supplied description on the
new submenu row, but the returned shape's `description` field is read from
the owning menu's description (while `id`, `title` and `dishes_count` come
from the created submenu). -/
theorem C10_create_submenu_returns_menu_description (s : Store) (hwf : s.wf)
    (menu_id : Nat) (menu : Menu) (hmenu : menu ∈ s.menus)
    (hmid : menu.id = menu_id) (title description : String) :
    (create_menu_submenu true s menu_id title description).2
        = .ok { id := s.nextId, title := title,
                description := menu.description, dishes_count := 0 } ∧
    (create_menu_submenu true s menu_id title description).1.submenus
        = s.submenus ++ [{ id := s.nextId, title := title,
                           description := description, menu_id := menu_id }] := by
  obtain ⟨hm, -, -, -, -, hdlt⟩ := hwf
  have hfm : findMenu s menu_id = .ok (some menu) :=
    crud_find_some _ _ hm menu hmenu _ hmid
  have hfresh : s.dishes.filter (fun d => d.submenu_id == s.nextId) = [] :=
    filter_beq_nil Dish.submenu_id s.dishes s.nextId
      (fun d hdm => Nat.ne_of_lt (hdlt d hdm).1)
  constructor
  · simp [create_menu_submenu, runTx, hfm, saveNewSubmenu, Store.dishesOf,
          hfresh]
  · simp [create_menu_submenu, runTx, hfm, saveNewSubmenu]

/-- C10 witness: creating submenu "T" with description "tdesc" under menu 1
(description "da") stores "tdesc" on the new row but returns "da" — and the
two strings differ. -/
theorem C10_create_submenu_returns_menu_description_witness :
    (create_menu_submenu true exampleStore 1 "T" "tdesc").2
        = .ok { id := 30, title := "T", description := "da",
                dishes_count := 0 } ∧
    (create_menu_submenu true exampleStore 1 "T" "tdesc").1.submenus
        = [⟨10, "S", "ds", 1⟩, ⟨11, "S2", "ds2", 2⟩, ⟨30, "T", "tdesc", 1⟩] ∧
    "da" ≠ "tdesc" := by
  have h := C10_create_submenu_returns_menu_description exampleStore (by decide)
    1 ⟨1, "A", "da"⟩ (by decide) (by decide) "T" "tdesc"
  exact ⟨h.1, h.2, by decide⟩

end Cafeteria
